import Mathlib

/-
Verification of the file-storage API core: the credential resolver
(`files/authentication.py`, class `JWTAuthenticationFromQuery`) and the
content transfer handler (`files/views.py`, `FileViewSet.content`).

The embedding is shallow: requests, records and responses are plain data,
the external token-validation service is a parameter
`validate : String → Option Identity`, the record database is a total map
`Nat → Option FileRecord`, and the handler returns its response together
with the resulting database state.
-/

namespace WordSuperdoc

/-- Opaque, equality-comparable reference to a user account. -/
abbrev Identity := Nat

/-- The HTTP methods admitted by the content action
(`methods=['get', 'put', 'patch', 'options']` in `files/views.py`). -/
inductive Method where
  | GET
  | PUT
  | PATCH
  | OPTIONS
deriving DecidableEq, Repr

/-- A stored blob: the filename recorded on the file field together with the
bytes it resolves to.  Modelled from the spec: a non-null blob reference
always resolves to retrievable bytes plus an original filename string used
for content-disposition purposes (the blob-storage backend is an external
collaborator and `models.py` is not among the analysed sources). -/
structure Blob where
  name : String
  bytes : List Nat
deriving DecidableEq, Repr

/-- A `FileModel` row: owning user, nullable file reference and the two
timestamps (`files/admin.py` lists exactly the fields `user`, `file`,
`created_at`, `updated_at`).  Modelled from the spec for the parts of the
absent `models.py`: identifier opaque and unique, owning identity a weak
reference, blob reference nullable. -/
structure FileRecord where
  user : Identity
  file : Option Blob
  created_at : Nat
  updated_at : Nat
deriving DecidableEq, Repr

/-- An inbound request as the two analysed components observe it: the
method, the optional `token` query parameter, the optional header bearer
token, and the optional multipart `file` payload (name and bytes). -/
structure Request where
  method : Method
  queryToken : Option String
  headerToken : Option String
  filePayload : Option Blob
deriving DecidableEq, Repr

/-- The `AuthenticationFailed` exceptions the resolver can raise. -/
inductive AuthFailure where
  | invalidQueryToken
  | invalidHeaderToken
  | noCredential
deriving DecidableEq, Repr

/-- Outcome of credential resolution: a resolved user paired with the
validated token, the anonymous pass-through (`return None`), or a raised
`AuthenticationFailed`. -/
inductive AuthOutcome where
  | ok (user : Identity) (token : String)
  | anonymous
  | fail (f : AuthFailure)
deriving DecidableEq, Repr

/-- Header-based resolution: `super().authenticate(request)` of the base
`JWTAuthentication` class followed by the final `raise AuthenticationFailed`
in `JWTAuthenticationFromQuery.authenticate` when the base class returns
`None`.  The base class returns `None` when no Authorization header token is
present and raises when a present header token fails validation. -/
def headerAuth (validate : String → Option Identity) (req : Request) :
    AuthOutcome :=
  match req.headerToken with
  | none => AuthOutcome.fail AuthFailure.noCredential
  | some t =>
    match validate t with
    | some u => AuthOutcome.ok u t
    | none => AuthOutcome.fail AuthFailure.invalidHeaderToken

/-- `JWTAuthenticationFromQuery.authenticate` (`files/authentication.py`).
`validate` stands for the external token-validation service — the
composition of `get_validated_token` and `get_user`: `some u` when the
token is valid and resolves to user `u`, `none` on any validation error.
The Python guard `if token:` tests truthiness, so a present-but-empty query
token falls through to the header path. -/
def authenticate (validate : String → Option Identity) (req : Request) :
    AuthOutcome :=
  if req.method = Method.OPTIONS then
    AuthOutcome.anonymous
  else
    match req.queryToken with
    | some t =>
      if t = "" then headerAuth validate req
      else
        match validate t with
        | some u => AuthOutcome.ok u t
        | none => AuthOutcome.fail AuthFailure.invalidQueryToken
    | none => headerAuth validate req

/-- A validator used by concrete witnesses: accepts `good` (user 7) and
`tkn` (user 3), rejects everything else. -/
def valSvc : String → Option Identity :=
  fun t => if t = "good" then some 7 else if t = "tkn" then some 3 else none

example :
    authenticate valSvc ⟨Method.GET, some "bad", some "good", none⟩ =
      AuthOutcome.fail AuthFailure.invalidQueryToken := by decide

example :
    authenticate valSvc ⟨Method.GET, some "", some "good", none⟩ =
      AuthOutcome.ok 7 "good" := by decide

example :
    authenticate valSvc ⟨Method.OPTIONS, some "bad", none, none⟩ =
      AuthOutcome.anonymous := by decide

example :
    authenticate valSvc ⟨Method.GET, none, none, none⟩ =
      AuthOutcome.fail AuthFailure.noCredential := by decide

/-- The responses produced by `FileViewSet.content`, one constructor per
exit point of the handler (plus the propagated exceptions). -/
inductive ContentResponse where
  | emptyOk
  | authFailed (f : AuthFailure)
  | notAuthenticated
  | recordNotFound
  | contentNotFound
  | fileStream (bytes : List Nat) (filename : String)
  | missingPayload
  | updated (fileUrl : String)
  | persistenceError
deriving DecidableEq, Repr

/-- HTTP status code of each response: 200 for the OPTIONS short-circuit,
the file stream and the update success; 401 for the two authentication
failures; 404 for the missing record and the missing content; 400 for the
missing payload; 500 for a propagated persistence exception. -/
def statusOf : ContentResponse → Nat
  | ContentResponse.emptyOk => 200
  | ContentResponse.authFailed _ => 401
  | ContentResponse.notAuthenticated => 401
  | ContentResponse.recordNotFound => 404
  | ContentResponse.contentNotFound => 404
  | ContentResponse.fileStream _ _ => 200
  | ContentResponse.missingPayload => 400
  | ContentResponse.updated _ => 200
  | ContentResponse.persistenceError => 500

/-- Whether a response carries a byte stream. -/
def isStream : ContentResponse → Bool
  | ContentResponse.fileStream _ _ => true
  | _ => false

/-- The record database: `FileModel.objects`, keyed by primary key. -/
abbrev Db := Nat → Option FileRecord

/-- Pointwise update of the database at one primary key. -/
def updateDb (db : Db) (pk : Nat) (r : FileRecord) : Db :=
  fun k => if k = pk then some r else db k

/-- `instance.file.url`.  Modelled from the spec: the new public content
URL, derived from the stored filename (the storage backend serving the URL
is an external collaborator). -/
def fileUrl (name : String) : String := "/media/" ++ name

/-- `instance.file.save(file_obj.name, file_obj, save=True)`: persist the
new blob in external storage and, only if persistence succeeded, update the
record's file reference and last-modified timestamp.  Modelled from the
spec for the external storage call: persistence may fail (`persistOk =
false`), in which case the exception propagates and the record is left
unchanged (all-or-nothing); on success the blob is stored under the
supplied original filename. -/
def fileSave (persistOk : Bool) (now : Nat) (blob : Blob) (r : FileRecord) :
    Option FileRecord :=
  if persistOk then some { r with file := some blob, updated_at := now }
  else none

/-- `FileViewSet.content` (`files/views.py`): first the OPTIONS
short-circuit, then the authentication check (a raised
`AuthenticationFailed` surfaces as 401; an unauthenticated user hits the
handler's own 401 branch), then `self.get_object()` (404 when the record
does not exist), then the per-method branch: GET streams the blob or
answers 404 when the file reference is null; PUT/PATCH answer 400 without a
`file` payload and otherwise replace the blob via `instance.file.save`.
The result pairs the response with the resulting database state. -/
def content (validate : String → Option Identity) (persistOk : Bool)
    (now : Nat) (db : Db) (pk : Nat) (req : Request) :
    ContentResponse × Db :=
  if req.method = Method.OPTIONS then
    (ContentResponse.emptyOk, db)
  else
    match authenticate validate req with
    | AuthOutcome.fail f => (ContentResponse.authFailed f, db)
    | AuthOutcome.anonymous => (ContentResponse.notAuthenticated, db)
    | AuthOutcome.ok _ _ =>
      match db pk with
      | none => (ContentResponse.recordNotFound, db)
      | some inst =>
        match req.method with
        | Method.GET =>
          match inst.file with
          | none => (ContentResponse.contentNotFound, db)
          | some blob =>
            (ContentResponse.fileStream blob.bytes blob.name, db)
        | _ =>
          match req.filePayload with
          | none => (ContentResponse.missingPayload, db)
          | some blob =>
            match fileSave persistOk now blob inst with
            | none => (ContentResponse.persistenceError, db)
            | some inst2 =>
              (ContentResponse.updated (fileUrl blob.name),
                updateDb db pk inst2)

/-- A one-record database used by concrete witnesses: record 1 owned by
user 7 with no content yet. -/
def db1 : Db :=
  fun k => if k = 1 then some ⟨7, none, 0, 0⟩ else none

example :
    (content valSvc true 5 db1 1
      ⟨Method.PUT, none, some "good", some ⟨"a.txt", [97, 98, 99]⟩⟩).fst =
      ContentResponse.updated "/media/a.txt" := by decide

example :
    (content valSvc true 5 db1 1 ⟨Method.GET, none, some "good", none⟩).fst =
      ContentResponse.contentNotFound := by decide

example :
    (content valSvc true 5 db1 2
      ⟨Method.PUT, none, some "good", none⟩).fst =
      ContentResponse.recordNotFound := by decide

example :
    (content valSvc true 5 db1 1 ⟨Method.OPTIONS, some "bad", none, none⟩).fst =
      ContentResponse.emptyOk := by decide

/-- Helper: `headerAuth` never raises `InvalidQueryToken`. -/
theorem headerAuth_ne_invalidQueryToken (validate : String → Option Identity)
    (req : Request) :
    headerAuth validate req ≠ AuthOutcome.fail AuthFailure.invalidQueryToken := by
  unfold headerAuth
  rcases h : req.headerToken with _ | t
  · simp [h]
  · rcases hv : validate t with _ | u <;> simp [h, hv]

/-- C1: on a non-OPTIONS request carrying both a (non-empty) query token and
a header token, if the validator rejects the query token then resolution
fails with `InvalidQueryToken` even though the validator accepts the header
token: there is no fall-through to header-based resolution. -/
theorem query_token_precedence (validate : String → Option Identity)
    (req : Request) (qt ht : String) (u : Identity)
    (hm : req.method ≠ Method.OPTIONS)
    (hq : req.queryToken = some qt) (hqne : qt ≠ "")
    (hqv : validate qt = none)
    (hh : req.headerToken = some ht) (hhv : validate ht = some u) :
    authenticate validate req =
      AuthOutcome.fail AuthFailure.invalidQueryToken := by
  simp [authenticate, hm, hq, hqne, hqv]

/-- Witness for C1 at a concrete request: query token `bad` (rejected),
header token `good` (resolving to user 7). -/
theorem query_token_precedence_witness :
    authenticate valSvc ⟨Method.GET, some "bad", some "good", none⟩ =
      AuthOutcome.fail AuthFailure.invalidQueryToken :=
  query_token_precedence valSvc ⟨Method.GET, some "bad", some "good", none⟩
    "bad" "good" 7 (by decide) rfl (by decide) (by decide) rfl (by decide)

/-- C8: on a non-OPTIONS request with no query token, resolution is
header-based: when the validator accepts the first request's header token,
resolution returns exactly the identity the validator resolves for it; when
the second request carries no header token, resolution fails with
`NoCredential`. -/
theorem header_fallback (validate : String → Option Identity)
    (req req2 : Request) (t : String) (u : Identity)
    (hm : req.method ≠ Method.OPTIONS) (hq : req.queryToken = none)
    (hh : req.headerToken = some t) (hv : validate t = some u)
    (hm2 : req2.method ≠ Method.OPTIONS) (hq2 : req2.queryToken = none)
    (hh2 : req2.headerToken = none) :
    authenticate validate req = AuthOutcome.ok u t ∧
    authenticate validate req2 = AuthOutcome.fail AuthFailure.noCredential := by
  constructor
  · simp [authenticate, hm, hq, headerAuth, hh, hv]
  · simp [authenticate, hm2, hq2, headerAuth, hh2]

/-- Witness for C8 at concrete requests: header token `good` resolving to
user 7, and a request with no token anywhere. -/
theorem header_fallback_witness :
    authenticate valSvc ⟨Method.GET, none, some "good", none⟩ =
      AuthOutcome.ok 7 "good" ∧
    authenticate valSvc ⟨Method.GET, none, none, none⟩ =
      AuthOutcome.fail AuthFailure.noCredential :=
  header_fallback valSvc ⟨Method.GET, none, some "good", none⟩
    ⟨Method.GET, none, none, none⟩ "good" 7
    (by decide) rfl rfl (by decide) (by decide) rfl rfl

/-- C9: on a non-OPTIONS request whose query token is present but empty,
resolution coincides with pure header-based resolution and never fails with
`InvalidQueryToken`. -/
theorem empty_query_token_falls_through (validate : String → Option Identity)
    (req : Request)
    (hm : req.method ≠ Method.OPTIONS) (hq : req.queryToken = some "") :
    authenticate validate req = headerAuth validate req ∧
    authenticate validate req ≠
      AuthOutcome.fail AuthFailure.invalidQueryToken := by
  have h : authenticate validate req = headerAuth validate req := by
    simp [authenticate, hm, hq]
  exact ⟨h, h ▸ headerAuth_ne_invalidQueryToken validate req⟩

/-- Witness for C9 at a concrete request: empty query token, valid header
token `good`. -/
theorem empty_query_token_falls_through_witness :
    authenticate valSvc ⟨Method.GET, some "", some "good", none⟩ =
      headerAuth valSvc ⟨Method.GET, some "", some "good", none⟩ ∧
    authenticate valSvc ⟨Method.GET, some "", some "good", none⟩ ≠
      AuthOutcome.fail AuthFailure.invalidQueryToken :=
  empty_query_token_falls_through valSvc
    ⟨Method.GET, some "", some "good", none⟩ (by decide) rfl

/-- C3: an OPTIONS request to the content endpoint answers 200 with the
empty body and leaves the database untouched, for every validator (so
neither credential resolution nor any payload or record check can influence
the outcome); moreover the credential resolver itself short-circuits to the
anonymous pass-through on such a request. -/
theorem options_short_circuit (validate : String → Option Identity)
    (persistOk : Bool) (now : Nat) (db : Db) (pk : Nat) (req : Request)
    (hm : req.method = Method.OPTIONS) :
    content validate persistOk now db pk req = (ContentResponse.emptyOk, db) ∧
    statusOf (content validate persistOk now db pk req).fst = 200 ∧
    authenticate validate req = AuthOutcome.anonymous := by
  refine ⟨?_, ?_, ?_⟩ <;> simp [content, authenticate, hm, statusOf]

/-- Witness for C3 at a concrete request: OPTIONS with an invalid query
token and no header token, against the one-record database. -/
theorem options_short_circuit_witness :
    content valSvc true 5 db1 1 ⟨Method.OPTIONS, some "bad", none, none⟩ =
      (ContentResponse.emptyOk, db1) ∧
    statusOf (content valSvc true 5 db1 1
      ⟨Method.OPTIONS, some "bad", none, none⟩).fst = 200 ∧
    authenticate valSvc ⟨Method.OPTIONS, some "bad", none, none⟩ =
      AuthOutcome.anonymous :=
  options_short_circuit valSvc true 5 db1 1
    ⟨Method.OPTIONS, some "bad", none, none⟩ rfl

/-- C10: the OPTIONS short-circuit precedes the record lookup: an OPTIONS
request addressed to a primary key with no record still answers 200 empty,
never `RecordNotFound`. -/
theorem options_before_lookup (validate : String → Option Identity)
    (persistOk : Bool) (now : Nat) (db : Db) (pk : Nat) (req : Request)
    (hm : req.method = Method.OPTIONS) (hdb : db pk = none) :
    content validate persistOk now db pk req = (ContentResponse.emptyOk, db) ∧
    (content validate persistOk now db pk req).fst ≠
      ContentResponse.recordNotFound := by
  have h : content validate persistOk now db pk req =
      (ContentResponse.emptyOk, db) := by simp [content, hm]
  exact ⟨h, by rw [h]; simp⟩

/-- Witness for C10 at a concrete request: OPTIONS addressed to primary key
2, absent from the one-record database. -/
theorem options_before_lookup_witness :
    content valSvc true 5 db1 2 ⟨Method.OPTIONS, none, none, none⟩ =
      (ContentResponse.emptyOk, db1) ∧
    (content valSvc true 5 db1 2 ⟨Method.OPTIONS, none, none, none⟩).fst ≠
      ContentResponse.recordNotFound :=
  options_before_lookup valSvc true 5 db1 2
    ⟨Method.OPTIONS, none, none, none⟩ rfl rfl

/-- C7: an authenticated GET of an existing record whose file reference is
null answers `ContentNotFound` with status 404 and never a byte stream. -/
theorem null_blob_read (validate : String → Option Identity)
    (persistOk : Bool) (now : Nat) (db : Db) (pk : Nat) (req : Request)
    (inst : FileRecord) (u : Identity) (t : String)
    (hm : req.method = Method.GET)
    (ha : authenticate validate req = AuthOutcome.ok u t)
    (hdb : db pk = some inst) (hf : inst.file = none) :
    (content validate persistOk now db pk req).fst =
      ContentResponse.contentNotFound ∧
    statusOf (content validate persistOk now db pk req).fst = 404 ∧
    isStream (content validate persistOk now db pk req).fst = false := by
  have h : (content validate persistOk now db pk req).fst =
      ContentResponse.contentNotFound := by
    simp [content, hm, ha, hdb, hf]
  exact ⟨h, by rw [h]; rfl, by rw [h]; rfl⟩

/-- Witness for C7 at a concrete request: GET of record 1 (which has no
content) with the valid header token `good`. -/
theorem null_blob_read_witness :
    (content valSvc true 5 db1 1 ⟨Method.GET, none, some "good", none⟩).fst =
      ContentResponse.contentNotFound ∧
    statusOf (content valSvc true 5 db1 1
      ⟨Method.GET, none, some "good", none⟩).fst = 404 ∧
    isStream (content valSvc true 5 db1 1
      ⟨Method.GET, none, some "good", none⟩).fst = false :=
  null_blob_read valSvc true 5 db1 1 ⟨Method.GET, none, some "good", none⟩
    ⟨7, none, 0, 0⟩ 7 "good" rfl (by decide) (by decide) rfl

/-- Helper: when blob persistence fails, the handler leaves the database
untouched on every path. -/
theorem content_persist_fail_snd (validate : String → Option Identity)
    (now : Nat) (db : Db) (pk : Nat) (req : Request) :
    (content validate false now db pk req).snd = db := by
  unfold content
  repeat' split
  all_goals simp_all [fileSave]

/-- A one-record database used by concrete witnesses: record 1 owned by
user 7 holding blob `old.txt` with bytes `[1, 2]`. -/
def db2 : Db :=
  fun k => if k = 1 then some ⟨7, some ⟨"old.txt", [1, 2]⟩, 0, 0⟩ else none

/-- C2: a WRITE during which blob persistence fails leaves the database
unchanged, so any subsequent request — in particular a READ of the same
record — behaves exactly as on the pre-write state. -/
theorem write_failure_atomic (validate : String → Option Identity)
    (now now2 : Nat) (persistOk2 : Bool) (db : Db) (pk : Nat)
    (reqW reqR : Request)
    (hw : reqW.method = Method.PUT ∨ reqW.method = Method.PATCH)
    (hr : reqR.method = Method.GET) :
    (content validate false now db pk reqW).snd = db ∧
    content validate persistOk2 now2
        (content validate false now db pk reqW).snd pk reqR =
      content validate persistOk2 now2 db pk reqR := by
  have h := content_persist_fail_snd validate now db pk reqW
  exact ⟨h, by rw [h]⟩

/-- Witness for C2 at a concrete state: failing PUT of `new.txt` to record
1 of `db2`, followed by a GET of the same record. -/
theorem write_failure_atomic_witness :
    (content valSvc false 5 db2 1
      ⟨Method.PUT, none, some "good", some ⟨"new.txt", [9]⟩⟩).snd = db2 ∧
    content valSvc true 6
        (content valSvc false 5 db2 1
          ⟨Method.PUT, none, some "good", some ⟨"new.txt", [9]⟩⟩).snd 1
        ⟨Method.GET, none, some "good", none⟩ =
      content valSvc true 6 db2 1 ⟨Method.GET, none, some "good", none⟩ :=
  write_failure_atomic valSvc 5 6 true db2 1
    ⟨Method.PUT, none, some "good", some ⟨"new.txt", [9]⟩⟩
    ⟨Method.GET, none, some "good", none⟩ (Or.inl rfl) rfl

/-- C5 counterexample: an authenticated payload-less PUT addressed to
primary key 2, absent from the one-record database, answers
`RecordNotFound` (404), not `MissingPayload`: the record fetch precedes the
payload check in the handler. -/
theorem payload_check_after_fetch_cex :
    (content valSvc true 5 db1 2 ⟨Method.PUT, none, some "good", none⟩).fst =
      ContentResponse.recordNotFound ∧
    (content valSvc true 5 db1 2 ⟨Method.PUT, none, some "good", none⟩).fst ≠
      ContentResponse.missingPayload := by
  constructor <;> decide

/-- C5 amended: for an authenticated payload-less WRITE, the record fetch
precedes the payload check: an existing record yields `MissingPayload`
(400), while a nonexistent record identifier yields `RecordNotFound`. -/
theorem missing_payload_after_fetch (validate : String → Option Identity)
    (persistOk : Bool) (now : Nat) (db : Db) (pk pk2 : Nat) (req : Request)
    (inst : FileRecord) (u : Identity) (t : String)
    (hw : req.method = Method.PUT ∨ req.method = Method.PATCH)
    (ha : authenticate validate req = AuthOutcome.ok u t)
    (hp : req.filePayload = none)
    (hdb : db pk = some inst) (hdb2 : db pk2 = none) :
    (content validate persistOk now db pk req).fst =
      ContentResponse.missingPayload ∧
    statusOf (content validate persistOk now db pk req).fst = 400 ∧
    (content validate persistOk now db pk2 req).fst =
      ContentResponse.recordNotFound := by
  have h1 : (content validate persistOk now db pk req).fst =
      ContentResponse.missingPayload := by
    rcases hw with h | h <;> simp [content, h, ha, hdb, hp]
  have h2 : (content validate persistOk now db pk2 req).fst =
      ContentResponse.recordNotFound := by
    rcases hw with h | h <;> simp [content, h, ha, hdb2]
  exact ⟨h1, by rw [h1]; rfl, h2⟩

/-- Witness for C5 amended at a concrete state: authenticated payload-less
PUT to record 1 (existing) and to primary key 2 (absent) of `db1`. -/
theorem missing_payload_after_fetch_witness :
    (content valSvc true 5 db1 1 ⟨Method.PUT, none, some "good", none⟩).fst =
      ContentResponse.missingPayload ∧
    statusOf (content valSvc true 5 db1 1
      ⟨Method.PUT, none, some "good", none⟩).fst = 400 ∧
    (content valSvc true 5 db1 2 ⟨Method.PUT, none, some "good", none⟩).fst =
      ContentResponse.recordNotFound :=
  missing_payload_after_fetch valSvc true 5 db1 1 2
    ⟨Method.PUT, none, some "good", none⟩ ⟨7, none, 0, 0⟩ 7 "good"
    (Or.inl rfl) (by decide) rfl (by decide) rfl

/-- Helper: the public content URL is never the empty string. -/
theorem fileUrl_ne_empty (s : String) : fileUrl s ≠ "" := by
  simp [fileUrl, String.ext_iff]

/-- C4: a successful authenticated WRITE of `blob` to an existing record
answers 200 with a non-empty file URL, and an immediately following
authenticated READ of the same record answers 200 streaming exactly the
bytes just written, with exactly the supplied filename as the
attachment-disposition filename. -/
theorem write_read_roundtrip (validate : String → Option Identity)
    (now now2 : Nat) (persistOk2 : Bool) (db : Db) (pk : Nat)
    (reqW reqR : Request) (inst : FileRecord) (blob : Blob)
    (uW uR : Identity) (tW tR : String)
    (hw : reqW.method = Method.PUT ∨ reqW.method = Method.PATCH)
    (haW : authenticate validate reqW = AuthOutcome.ok uW tW)
    (hdb : db pk = some inst)
    (hp : reqW.filePayload = some blob)
    (hr : reqR.method = Method.GET)
    (haR : authenticate validate reqR = AuthOutcome.ok uR tR) :
    (content validate true now db pk reqW).fst =
      ContentResponse.updated (fileUrl blob.name) ∧
    statusOf (content validate true now db pk reqW).fst = 200 ∧
    fileUrl blob.name ≠ "" ∧
    (content validate persistOk2 now2
        (content validate true now db pk reqW).snd pk reqR).fst =
      ContentResponse.fileStream blob.bytes blob.name ∧
    statusOf (content validate persistOk2 now2
        (content validate true now db pk reqW).snd pk reqR).fst = 200 := by
  have hW : content validate true now db pk reqW =
      (ContentResponse.updated (fileUrl blob.name),
        updateDb db pk { inst with file := some blob, updated_at := now }) := by
    rcases hw with h | h <;> simp [content, h, haW, hdb, hp, fileSave]
  have hR : (content validate persistOk2 now2
      (content validate true now db pk reqW).snd pk reqR).fst =
      ContentResponse.fileStream blob.bytes blob.name := by
    rw [hW]
    simp [content, hr, haR, updateDb]
  exact ⟨by rw [hW], by rw [hW]; rfl, fileUrl_ne_empty blob.name, hR,
    by rw [hR]; rfl⟩

/-- Witness for C4 at a concrete state: PUT of `a.txt` with bytes
`[97, 98, 99]` to record 1 of `db1`, then GET of the same record, both with
the valid header token `good`. -/
theorem write_read_roundtrip_witness :
    (content valSvc true 5 db1 1
      ⟨Method.PUT, none, some "good", some ⟨"a.txt", [97, 98, 99]⟩⟩).fst =
      ContentResponse.updated (fileUrl "a.txt") ∧
    statusOf (content valSvc true 5 db1 1
      ⟨Method.PUT, none, some "good", some ⟨"a.txt", [97, 98, 99]⟩⟩).fst =
      200 ∧
    fileUrl "a.txt" ≠ "" ∧
    (content valSvc true 6
        (content valSvc true 5 db1 1
          ⟨Method.PUT, none, some "good", some ⟨"a.txt", [97, 98, 99]⟩⟩).snd 1
        ⟨Method.GET, none, some "good", none⟩).fst =
      ContentResponse.fileStream [97, 98, 99] "a.txt" ∧
    statusOf (content valSvc true 6
        (content valSvc true 5 db1 1
          ⟨Method.PUT, none, some "good", some ⟨"a.txt", [97, 98, 99]⟩⟩).snd 1
        ⟨Method.GET, none, some "good", none⟩).fst = 200 :=
  write_read_roundtrip valSvc 5 6 true db1 1
    ⟨Method.PUT, none, some "good", some ⟨"a.txt", [97, 98, 99]⟩⟩
    ⟨Method.GET, none, some "good", none⟩ ⟨7, none, 0, 0⟩
    ⟨"a.txt", [97, 98, 99]⟩ 7 7 "good" "good"
    (Or.inl rfl) (by decide) (by decide) rfl rfl (by decide)

/-- C6: the handler performs no ownership check: replacing the owning
identity of the addressed record by an arbitrary identity leaves the
response of every request — READ or WRITE, whatever the resolved identity —
unchanged. -/
theorem no_ownership_check (validate : String → Option Identity)
    (persistOk : Bool) (now : Nat) (db : Db) (pk : Nat) (req : Request)
    (inst : FileRecord) (o : Identity)
    (hdb : db pk = some inst) :
    (content validate persistOk now
        (updateDb db pk { inst with user := o }) pk req).fst =
      (content validate persistOk now db pk req).fst := by
  have hdb2 : updateDb db pk { inst with user := o } pk =
      some { inst with user := o } := by simp [updateDb]
  unfold content
  split
  · rfl
  · rcases h : authenticate validate req with ⟨u, t⟩ | _ | f <;>
      simp only [h]
    · rw [hdb, hdb2]
      rcases hm : req.method with _ | _ | _ | _ <;> simp only [hm]
      · rcases hf : inst.file with _ | blob <;> simp [hf]
      · rcases hp : req.filePayload with _ | blob <;> simp [hp, fileSave]
        cases persistOk <;> simp
      · rcases hp : req.filePayload with _ | blob <;> simp [hp, fileSave]
        cases persistOk <;> simp
      · rcases hp : req.filePayload with _ | blob <;> simp [hp, fileSave]
        cases persistOk <;> simp

/-- Witness for C6 at a concrete state: repointing record 1 of `db2` to
owner 42 does not change the response of an authenticated GET (the resolved
identity is user 7, not 42). -/
theorem no_ownership_check_witness :
    (content valSvc true 5
        (updateDb db2 1 { (⟨7, some ⟨"old.txt", [1, 2]⟩, 0, 0⟩ : FileRecord)
          with user := 42 }) 1
        ⟨Method.GET, none, some "good", none⟩).fst =
      (content valSvc true 5 db2 1
        ⟨Method.GET, none, some "good", none⟩).fst :=
  no_ownership_check valSvc true 5 db2 1
    ⟨Method.GET, none, some "good", none⟩
    ⟨7, some ⟨"old.txt", [1, 2]⟩, 0, 0⟩ 42 (by decide)

end WordSuperdoc
